import Mathlib

/-
Verification of the TestcaseReporting module (testcase_reporting_views.py):
a shallow embedding of the report assembler (get_test_case_data and its
helpers) and of the saved-view store (validate / create / update / move /
list / duplicate check).  Python dictionaries are modelled as insertion
ordered association lists with string keys, Python exceptions as an
explicit error type, and the external collaborators (Elasticsearch client,
scrolled search, filesystem, clock) as an environment of oracles whose
responses are arbitrary Python values.
-/

namespace TestcaseReporting

/-- A Python value as used by the module: None, bool, int, str, list and
string-keyed dict (insertion ordered). -/
inductive PyVal where
  | none
  | bool (b : Bool)
  | int (n : Int)
  | str (s : String)
  | list (l : List PyVal)
  | dict (d : List (String × PyVal))

/-- The Python exceptions the module can raise.  missingInfo / unneededInfo
model the two Exception messages of _validate_save_view_data, carrying the
keys the message names; userError models a generic Exception with a
message; ioError models IOError with its message. -/
inductive PyErr where
  | keyError (k : String)
  | nameError
  | typeError
  | valueError
  | stopIteration
  | ioError (msg : String)
  | userError (msg : String)
  | missingInfo (ks : List String)
  | unneededInfo (ks : List String)
deriving DecidableEq

/-- A Python dict with string keys, in insertion order. -/
abbrev Dict := List (String × PyVal)

/-- Dict lookup (d[k] as a partial operation): first binding wins. -/
def dlookup : Dict → String → Option PyVal
  | [], _ => Option.none
  | (k, v) :: t, k2 => if k = k2 then some v else dlookup t k2

/-- Dict assignment d[k] = v: replace the existing binding in place, or
append a new one (Python dicts keep insertion order). -/
def dset : Dict → String → PyVal → Dict
  | [], k, v => [(k, v)]
  | (k1, v1) :: t, k, v => if k1 = k then (k, v) :: t else (k1, v1) :: dset t k v

/-- Dict d.pop(k): remove the binding of k. -/
def dremove : Dict → String → Dict
  | [], _ => []
  | (k1, v1) :: t, k => if k1 = k then dremove t k else (k1, v1) :: dremove t k

/-- Dict d.update(u): fold the bindings of u into d in order. -/
def dupdate (d : Dict) (u : Dict) : Dict := u.foldl (fun acc e => dset acc e.1 e.2) d

/-- The key list of a dict. -/
def dkeys (d : Dict) : List String := d.map (fun e => e.1)

/-- d[k].append(v): the value under k must exist and be a list. -/
def dAppend (d : Dict) (k : String) (v : PyVal) : Except PyErr Dict :=
  match dlookup d k with
  | some (.list l) => .ok (dset d k (.list (l ++ [v])))
  | some _ => .error .typeError
  | Option.none => .error (.keyError k)

/-- Python truthiness of a value. -/
def pyTruthy : PyVal → Bool
  | .none => false
  | .bool b => b
  | .int n => !(n == 0)
  | .str s => !(s == "")
  | .list l => !l.isEmpty
  | .dict d => !d.isEmpty

/-- v[k] on a Python value: KeyError when the key is absent, TypeError when
v is not a dict. -/
def pyIndex (v : PyVal) (k : String) : Except PyErr PyVal :=
  match v with
  | .dict d =>
    match dlookup d k with
    | some x => .ok x
    | Option.none => .error (.keyError k)
  | _ => .error .typeError

/-- v.get(k, dflt): requires a dict (AttributeError otherwise, modelled as
typeError). -/
def pyGetD (v : PyVal) (k : String) (dflt : PyVal) : Except PyErr PyVal :=
  match v with
  | .dict d => .ok ((dlookup d k).getD dflt)
  | _ => .error .typeError

/-- str(v), as used for interpolation in messages. -/
def pyStrOf : PyVal → String
  | .none => "None"
  | .bool b => if b then "True" else "False"
  | .int n => toString n
  | .str s => s
  | .list _ => "<list>"
  | .dict _ => "<dict>"

/-- int(v) for the optional value data.get("days"): ints and bools convert,
numeric strings parse, None raises TypeError, other strings ValueError. -/
def pyToInt : Option PyVal → Except PyErr Int
  | some (.int n) => .ok n
  | some (.bool b) => .ok (if b then 1 else 0)
  | some (.str s) =>
    match s.trim.toInt? with
    | some n => .ok n
    | Option.none => .error .valueError
  | _ => .error .typeError

/-- Does a character belong to a character set (for str.strip(chars)). -/
def chInSet (cs : List Char) (c : Char) : Bool := cs.contains c

/-- str.strip(cs): trim the characters of the set cs from both ends. -/
def pyStripChars (cs : String) (s : String) : String :=
  String.mk (((s.data.dropWhile (chInSet cs.data)).reverse.dropWhile (chInSet cs.data)).reverse)

/-- A whitespace character for str.strip(). -/
def isSpaceCh (c : Char) : Bool := c = ' ' || c = '\t' || c = '\n' || c = '\r'

/-- str.strip(): trim whitespace from both ends. -/
def pyStripWS (s : String) : String :=
  String.mk (((s.data.dropWhile isSpaceCh).reverse.dropWhile isSpaceCh).reverse)

/-- Does the char list s start with the char list pat. -/
def startsWithCL : List Char → List Char → Bool
  | _, [] => true
  | [], _ :: _ => false
  | a :: as, p :: ps => (a == p) && startsWithCL as ps

/-- Fueled worker for Python str.split(sep) over char lists (sep nonempty,
non-overlapping, left to right).  The fuel is the length of the string plus
one, which always suffices. -/
def splitCLAux (pat : List Char) : Nat → List Char → List Char → List (List Char)
  | 0, s, acc => [acc.reverse ++ s]
  | fuel + 1, s, acc =>
    match s with
    | [] => [acc.reverse]
    | c :: rest =>
      if startsWithCL s pat then
        acc.reverse :: splitCLAux pat fuel (s.drop pat.length) []
      else
        splitCLAux pat fuel rest (c :: acc)

/-- Python s.split(sep) for a nonempty separator. -/
def pySplit (s sep : String) : List String :=
  (splitCLAux sep.data (s.data.length + 1) s.data []).map String.mk

/-- Python s.capitalize(): first character upper-cased, the rest lower-cased. -/
def pyCapitalize (s : String) : String :=
  match s.data with
  | [] => ""
  | c :: rest => String.mk (c.toUpper :: rest.map Char.toLower)

/-- Does a string end in a path separator. -/
def endsInSlash (a : String) : Bool :=
  match a.data.getLast? with
  | some c => c == '/'
  | _ => false

/-- os.path.join for the relative components the module uses. -/
def pjoin (a b : String) : String :=
  if a = "" then b
  else if b = "" then a ++ "/"
  else if endsInSlash a then a ++ b
  else a ++ "/" ++ b

/-- os.path.join(a, b) on Python values: both components must be strings
(TypeError otherwise, covering the AttributeError of Python 2 join on a
non-string). -/
def pyPathJoin (a b : PyVal) : Except PyErr String :=
  match a, b with
  | .str x, .str y => .ok (pjoin x y)
  | _, _ => .error .typeError

/-- Index of the first occurrence of a string in a list (list.index, always
found at the call sites of the module). -/
def idxOfS (x : String) : List String → Nat
  | [] => 0
  | y :: t => if y = x then 0 else idxOfS x t + 1

/-- A list of strings as a Python list value. -/
def strListVal (l : List String) : PyVal := .list (l.map PyVal.str)

/-- The filesystem oracle: isFile and pathExists mirror os.path.isfile and
os.path.exists; walk p returns the (directories, files) of the first
os.walk entry, and Option.none exactly when p is not an existing directory
(os.walk then yields nothing, so next() raises StopIteration). -/
structure FS where
  isFile : String → Bool
  pathExists : String → Bool
  walk : String → Option (List String × List String)

/-- The clock: datetime.now() as a day number, and strftime of a day
number as the formatted date string. -/
structure Clock where
  now : Int
  strftime : Int → String

/-- The environment of external collaborators of the report assembler:
the bottle request payload, the filesystem and view-store root, the mapping
introspection response, the scrolled search (pages of raw documents) and
the plain search used for aggregations.  Responses are arbitrary values or
errors. -/
structure Env where
  clock : Clock
  requestJson : Dict
  fs : FS
  root : String
  getMapping : Except PyErr PyVal
  searchIndex : PyVal → Except PyErr (List (List PyVal))
  search : PyVal → Except PyErr PyVal

/-! ## View store -/

/-- The canonical save-view payload key set (self.__save_view_structure). -/
def saveViewStructure : List String := ["folder", "view", "filters"]

/-- _validate_save_view_data: compare the payload key set with the
canonical structure; raise naming the missing keys, or else raise naming
the unneeded keys. -/
def _validate_save_view_data (d : Dict) : Except PyErr Unit :=
  let missing := saveViewStructure.filter (fun k => !((dkeys d).contains k))
  let unrequired := (dkeys d).filter (fun k => !(saveViewStructure.contains k))
  if missing ≠ [] then .error (.missingInfo missing)
  else if unrequired ≠ [] then .error (.unneededInfo unrequired)
  else .ok ()

/-- __get_full_path: root/folder.strip()/view.strip() + ".json".  The two
values must be strings (AttributeError otherwise). -/
def get_full_path (root : String) (d : Dict) : Except PyErr String :=
  match dlookup d "folder" with
  | Option.none => .error (.keyError "folder")
  | some (.str f) =>
    match dlookup d "view" with
    | Option.none => .error (.keyError "view")
    | some (.str v) => .ok (pjoin (pjoin root (pyStripWS f)) (pyStripWS v ++ ".json"))
    | some _ => .error .typeError
  | some _ => .error .typeError

/-- fname.strip(".json") as used when listing views: a character-set trim,
not an exact suffix removal. -/
def jsonStrip (s : String) : String := pyStripChars ".json" s

/-- get_available_views: walk the requested directory once; build
  &#123;views, folders&#125; from its immediate children.  A path that is not an
existing directory makes next(os.walk(...)) raise StopIteration. -/
def get_available_views (root : String) (fs : FS) (path : Option String) :
    Except PyErr Dict :=
  let p := match path with
    | some pp => if pp = "" then root else pjoin root pp
    | Option.none => root
  match fs.walk p with
  | Option.none => .error .stopIteration
  | some (dirs, files) =>
    let ret : Dict := [("views", .list []), ("folders", .list [])]
    let ret := dset ret "folders" (strListVal dirs)
    let ret := dset ret "views" (.list (files.map (fun f => PyVal.str (jsonStrip f))))
    .ok ret

/-- is_a_duplicate_view_available: list the views under folders/view_name,
then test membership of view_name in data["view"].  The listing dict only
has the keys "views" and "folders", so the data["view"] access raises
KeyError("view"). -/
def is_a_duplicate_view_available (root : String) (fs : FS)
    (folders viewName : String) : Except PyErr Bool :=
  let path := pjoin folders viewName
  match get_available_views root fs (some path) with
  | .error e => .error e
  | .ok dta =>
    match dlookup dta "view" with
    | Option.none => .error (.keyError "view")
    | some (.list l) =>
      .ok (l.any (fun e => match e with | .str s => s == viewName | _ => false))
    | some _ => .ok false

/-- __save_test_results_view: resolve the save path (creating intermediate
folders as a side effect not modelled here) and write the filters as JSON.
The observable effect is returned: the full path written and the value
serialized there.  The folder and view values must be strings. -/
def save_test_results_view (root : String) (d : Dict) :
    Except PyErr (String × PyVal) :=
  match (dlookup d "folder").getD (.str "") with
  | .str f =>
    match (dlookup d "view").getD (.str "") with
    | .str v =>
      let folders := pyStripWS f
      let viewName := pyStripWS v
      let filters := (dlookup d "filters").getD (.str "")
      let savePath := if folders ≠ "" then pjoin root folders else ""
      let savePath := if savePath = "" then root else savePath
      .ok (pjoin savePath (viewName ++ ".json"), filters)
    | _ => .error .typeError
  | _ => .error .typeError

/-- create_test_results_view: validate, then refuse when a file already
exists at the resolved path, else save.  In the duplicate branch the code
builds the IOError message from the names folders and view_name, which are
not bound in that scope, so the branch actually raises NameError before the
IOError is constructed. -/
def create_test_results_view (root : String) (fs : FS) (d : Dict)
    (_saveType : PyVal) : Except PyErr (String × PyVal) :=
  match _validate_save_view_data d with
  | .error e => .error e
  | .ok _ =>
    match get_full_path root d with
    | .error e => .error e
    | .ok fullPath =>
      if fs.pathExists fullPath then .error .nameError
      else save_test_results_view root d

/-- update_test_results_view: validate, resolve the path (unused), and save
unconditionally with no existence check. -/
def update_test_results_view (root : String) (d : Dict) :
    Except PyErr (String × PyVal) :=
  match _validate_save_view_data d with
  | .error e => .error e
  | .ok _ =>
    match get_full_path root d with
    | .error e => .error e
    | .ok _ => save_test_results_view root d

/-- move_test_results_view: the destination must exist; a file named
src + ".json" makes this a file move (the extension is appended) and takes
priority over a same-named folder; otherwise the source must exist as is.
The observable effect is the (source, destination) pair handed to
shutil.move. -/
def move_test_results_view (root : String) (fs : FS) (srcPath destPath : String) :
    Except PyErr (String × String) :=
  let fullSrc := pjoin root srcPath
  let fullDest := pjoin root destPath
  let srcIsAFile := fs.isFile (fullSrc ++ ".json")
  let srcExists := fs.pathExists fullSrc
  let destExists := fs.pathExists fullDest
  if !destExists then
    .error (.ioError ("Destination path " ++ destPath ++ " does not exist"))
  else if srcIsAFile then .ok (fullSrc ++ ".json", fullDest)
  else if !srcExists then
    .error (.ioError ("Source path " ++ srcPath ++ " does not exist"))
  else .ok (fullSrc, fullDest)

/-! ## Date filters, query builder, aggregation builder -/

/-- The filter mode of a request: the "filter" value when it is a string
(comparisons of a non-string value with "date"/"days"/"all" are all False
in Python, which lands in the default branch exactly like a missing key). -/
def filterMode (data : Dict) : Option String :=
  match dlookup data "filter" with
  | some (.str s) => some s
  | _ => Option.none

/-- A possibly-absent date bound as a Python value (None when absent). -/
def pyOfOptStr : Option String → PyVal
  | Option.none => .none
  | some s => .str s

/-- _get_date_filters: resolve the (from, to) bounds from the filter kind,
recording filter description and bounds into final_dict; returns the
updated dict and the bounds.  "date" reads the pre-"T" portions of the two
supplied bounds (KeyError when missing, AttributeError on non-strings);
"days" computes now - int(days) .. now; "all" yields (None, None); anything
else defaults to the last 30 days. -/
def _get_date_filters (c : Clock) (data d : Dict) :
    Except PyErr (Dict × Option String × Option String) :=
  if filterMode data = some "date" then
    match dlookup data "to_date" with
    | Option.none => .error (.keyError "to_date")
    | some (.str ts) =>
      let toD := (pySplit ts "T").headD ""
      match dlookup data "from_date" with
      | Option.none => .error (.keyError "from_date")
      | some (.str fs2) =>
        let fromD := (pySplit fs2 "T").headD ""
        let d := dset d "filter" (.str (fromD ++ " to " ++ toD))
        .ok (dset (dset d "from_date" (.str fromD)) "to_date" (.str toD),
             some fromD, some toD)
      | some _ => .error .typeError
    | some _ => .error .typeError
  else if filterMode data = some "days" then
    match pyToInt (dlookup data "days") with
    | .error e => .error e
    | .ok n =>
      let toD := c.strftime c.now
      let fromD := c.strftime (c.now - n)
      let d := dset d "filter"
        (.str ("Last " ++ pyStrOf ((dlookup data "days").getD .none) ++ " days"))
      .ok (dset (dset d "from_date" (.str fromD)) "to_date" (.str toD),
           some fromD, some toD)
  else if filterMode data = some "all" then
    let d := dset d "filter" (.str "All")
    .ok (dset (dset d "from_date" .none) "to_date" .none, Option.none, Option.none)
  else
    let toD := c.strftime c.now
    let fromD := c.strftime (c.now - 30)
    .ok (dset (dset d "from_date" (.str fromD)) "to_date" (.str toD),
         some fromD, some toD)

/-- Truthiness of an optional date-bound string (None and "" are falsy). -/
def pyTruthyOptStr : Option String → Bool
  | Option.none => false
  | some s => !(s == "")

/-- _form_query_dict: the source projection always excludes the two raw
key-value sub-fields and includes the visible fields plus the job_attrs and
cust_attrs namespaces; one inclusive jobdate range clause is added exactly
when both bounds are truthy. -/
def _form_query_dict (fromD toD : Option String) (fieldsVisible : List String) :
    Dict :=
  let srcD : Dict :=
    [("excludes", .list [.str "job_attrs.job_attrs_kv", .str "cust_attrs.cust_attrs_kv"]),
     ("includes", .list ((fieldsVisible ++ ["job_attrs", "cust_attrs"]).map PyVal.str))]
  let d : Dict := [("_source", .dict srcD)]
  if pyTruthyOptStr fromD && pyTruthyOptStr toD then
    dset d "query"
      (.dict [("query", .dict [("bool", .dict [("filter", .dict [("range", .dict
        [("jobdate", .dict [("gte", pyOfOptStr fromD), ("lte", pyOfOptStr toD)])])])])])])
  else d

/-- A terms aggregation clause over a field, of size 0. -/
def termsAgg (field : String) : PyVal :=
  .dict [("terms", .dict [("field", .str field), ("size", .int 0)])]

/-- The fixed attribute facet set of _get_aggregated_data. -/
def aggAttrFields : List String :=
  ["major", "minor", "production", "program_type", "testgroup"]

/-- The aggregation query of _get_aggregated_data: zero-hit query with a
jobdate range filter (possibly with null bounds), an optional exact type
match (after normalizing the legacy alias CPT to L2ADD), a status facet
under the key "jobstatus" and a facet per attribute field read from its
".raw" sub-field. -/
def aggregationQuery (fromD toD : Option String) (ty : Option PyVal) : Dict :=
  let boolD : Dict :=
    [("filter", .dict [("range", .dict
      [("jobdate", .dict [("gte", pyOfOptStr fromD), ("lte", pyOfOptStr toD)])])])]
  let boolD := match ty with
    | some tv =>
      if pyTruthy tv then
        let tv2 := match tv with | .str "CPT" => PyVal.str "L2ADD" | _ => tv
        dset boolD "must" (.dict [("match", .dict [("type", tv2)])])
      else boolD
    | Option.none => boolD
  let aggsD : Dict :=
    ("jobstatus", termsAgg "status") ::
      aggAttrFields.map (fun f => (f, termsAgg ("job_attrs." ++ f ++ ".raw")))
  [("size", .int 0), ("query", .dict [("bool", .dict boolD)]), ("aggs", .dict aggsD)]

/-- Flatten one facet of the search response: bucket["buckets"] becomes a
plain value-to-count dict.  Bucket keys are modelled as strings. -/
def flattenBuckets (bucket : PyVal) : Except PyErr Dict :=
  match pyIndex bucket "buckets" with
  | .error e => .error e
  | .ok (.list docs) =>
    docs.foldlM (fun acc doc =>
      match pyIndex doc "key" with
      | .error e => .error e
      | .ok (.str ks) =>
        match pyIndex doc "doc_count" with
        | .error e => .error e
        | .ok c => .ok (dset acc ks c)
      | .ok _ => .error .typeError) ([] : Dict)
  | .ok _ => .error .typeError

/-- _get_aggregated_data: run the aggregation query and flatten every facet
of out.get("aggregations", &#123;&#125;) into a value-to-count mapping. -/
def _get_aggregated_data (env : Env) (fromD toD : Option String) (ty : Option PyVal) :
    Except PyErr Dict :=
  let q := aggregationQuery fromD toD ty
  match env.search (.dict q) with
  | .error e => .error e
  | .ok out =>
    match pyGetD out "aggregations" (.dict []) with
    | .error e => .error e
    | .ok (.dict ad) =>
      ad.foldlM (fun acc kv =>
        match flattenBuckets kv.2 with
        | .error e => .error e
        | .ok inner => .ok (dset acc kv.1 (.dict inner))) ([] : Dict)
    | .ok _ => .error .typeError

/-- ring_data["stage_status"] = ring_data.pop("jobstatus"): KeyError when
the status facet is absent; otherwise the raw facet key is renamed to the
fixed output key. -/
def renameStatusFacet (ring : Dict) : Except PyErr Dict :=
  match dlookup ring "jobstatus" with
  | Option.none => .error (.keyError "jobstatus")
  | some v => .ok (dset (dremove ring "jobstatus") "stage_status" v)

/-! ## Report assembler -/

/-- The fixed visible fields of the GUI. -/
def baseFields : List String :=
  ["job", "job_id", "testcase_name", "status", "type", "jobdate", "executiontime",
   "log_uri", "stage", "sut", "sut_wwid", "log", "os", "model", "hardware", "team",
   "spp_detail", "spp_status"]

/-- default_row_data: every catalog field seeded with "NA". -/
def mkDefaultRow (fields : List String) : Dict :=
  fields.foldl (fun d f => dset d f (.str "NA")) []

/-- Extract the job_attrs and cust_attrs mapping nodes from the mapping
introspection response: when the response has a truthy "cirrus" entry,
navigate response["cirrus"]["mappings"]["testinfo"].get("properties",
&#123;&#125;).get(...), else both default to empty dicts. -/
def extractAttrPair (m : PyVal) : Except PyErr (PyVal × PyVal) :=
  match m with
  | .dict md =>
    if pyTruthy ((dlookup md "cirrus").getD .none) then
      match pyIndex m "cirrus" with
      | .error e => .error e
      | .ok m1 =>
        match pyIndex m1 "mappings" with
        | .error e => .error e
        | .ok m2 =>
          match pyIndex m2 "testinfo" with
          | .error e => .error e
          | .ok m3 =>
            match pyGetD m3 "properties" (.dict []) with
            | .error e => .error e
            | .ok props =>
              match pyGetD props "job_attrs" .none with
              | .error e => .error e
              | .ok ja =>
                match pyGetD props "cust_attrs" .none with
                | .error e => .error e
                | .ok ca => .ok (ja, ca)
    else .ok (.dict [], .dict [])
  | _ => .error .typeError

/-- From a truthy attrs node take attrs["properties"], pop its internal raw
key-value sub-field, and return the remaining keys; a falsy node yields
nothing. -/
def attrProps (attrs : PyVal) (kvKey : String) : Except PyErr (Option (List String)) :=
  if pyTruthy attrs then
    match attrs with
    | .dict ad =>
      match dlookup ad "properties" with
      | some (.dict props) => .ok (some (dkeys (dremove props kvKey)))
      | some _ => .error .typeError
      | Option.none => .error (.keyError "properties")
    | _ => .error .typeError
  else .ok Option.none

/-- Lines 232-249: discover the dynamic field catalog from the mapping,
record the three column-grouping lists and the full testattr list, and
return the extended visible-field list.  An error carries the dict state
reached so far (mutations before the raise are kept by the except branch). -/
def catalogPhase (mapResp : PyVal) (d : Dict) : Except Dict (Dict × List String) :=
  match extractAttrPair mapResp with
  | .error _ => .error d
  | .ok (ja, ca) =>
    let d := dset d "cirrus_attributes_col" (strListVal baseFields)
    match attrProps ja "job_attrs_kv" with
    | .error _ => .error d
    | .ok jks =>
      let fv := baseFields ++ jks.getD []
      let d := match jks with
        | some ks => dset d "job_attributes_col" (strListVal ks)
        | Option.none => d
      match attrProps ca "cust_attrs_kv" with
      | .error _ => .error d
      | .ok cks =>
        let fv := fv ++ cks.getD []
        let d := match cks with
          | some ks => dset d "testcase_attributes_col" (strListVal ks)
          | Option.none => d
        .ok (dset d "testattr" (strListVal fv), fv)

/-- The per-source-field step of the row loop: copy the value only when the
field is a recognized row key, then apply the per-field derivations (stage
truncated at the first "_ci" into stage_stdout, log_uri kept plus log_name
after the last "/", status capitalized into job and stage_status, type
moved verbatim into test_type). -/
def stepField (row : Dict) (field : String) (v : PyVal) : Except PyErr Dict :=
  match dlookup row field with
  | Option.none => .ok row
  | some _ =>
    let row := dset row field v
    if field = "stage" then
      match v with
      | .str s =>
        .ok (dset (dremove row "stage") "stage_stdout" (.str ((pySplit s "_ci").headD "")))
      | _ => .error .typeError
    else if field = "log_uri" then
      match v with
      | .str s => .ok (dset row "log_name" (.str ((pySplit s "/").getLastD "")))
      | _ => .error .typeError
    else if field = "status" then
      match v with
      | .str s =>
        let row := dset row "job" (.str (pyCapitalize s))
        .ok (dset (dremove row "status") "stage_status" (.str (pyCapitalize s)))
      | _ => .error .typeError
    else if field = "type" then
      .ok (dset (dremove row "type") "test_type" v)
    else .ok row

/-- Shape one raw document into a report row: seed with the "NA" defaults,
overlay the job_attrs and cust_attrs maps of its _source, then fold every
source field through stepField. -/
def shapeRow (defaultRow : Dict) (doc : PyVal) : Except PyErr Dict :=
  match pyIndex doc "_source" with
  | .error e => .error e
  | .ok source =>
    match source with
    | .dict src =>
      match pyGetD source "job_attrs" (.dict []) with
      | .error e => .error e
      | .ok ja =>
        match (match ja with
               | .dict u => Except.ok (dupdate defaultRow u)
               | _ => Except.error PyErr.typeError) with
        | .error e => .error e
        | .ok row =>
          match pyGetD source "cust_attrs" (.dict []) with
          | .error e => .error e
          | .ok ca =>
            match (match ca with
                   | .dict u => Except.ok (dupdate row u)
                   | _ => Except.error PyErr.typeError) with
            | .error e => .error e
            | .ok row => src.foldlM (fun r kv => stepField r kv.1 kv.2) row
    | _ => .error .typeError

/-- The inner document loop: shape each doc, count it, and append the row
to final_dict["testinfo"].  An error carries the dict state reached so far
(rows already appended are kept). -/
def rowLoopDocs (defaultRow : Dict) : List PyVal → Dict → Nat → Except Dict (Dict × Nat)
  | [], d, cnt => .ok (d, cnt)
  | doc :: rest, d, cnt =>
    match shapeRow defaultRow doc with
    | .error _ => .error d
    | .ok row =>
      match dAppend d "testinfo" (.dict row) with
      | .error _ => .error d
      | .ok d2 => rowLoopDocs defaultRow rest d2 (cnt + 1)

/-- The outer page loop over the scrolled search result. -/
def rowLoopPages (defaultRow : Dict) : List (List PyVal) → Dict → Nat → Except Dict (Dict × Nat)
  | [], d, cnt => .ok (d, cnt)
  | pg :: rest, d, cnt =>
    match rowLoopDocs defaultRow pg d cnt with
    | .error d2 => .error d2
    | .ok (d2, c2) => rowLoopPages defaultRow rest d2 c2

/-- Lines 262-269: rename stage / status / type in the cirrus column list
(and drop log_uri from the iterated field list) using the list indices the
code computes on fields_visible. -/
def columnRenames (d : Dict) (fv : List String) : Except Dict Dict :=
  match dlookup d "cirrus_attributes_col" with
  | some (.list cac) =>
    let i1 := idxOfS "stage" fv
    let cac := cac.set i1 (.str "stage_stdout")
    let fv2 := fv.erase "log_uri"
    let i2 := idxOfS "status" fv2
    let cac := cac.set i2 (.str "stage_status")
    let fv3 := fv2.set i2 "stage_status"
    let i3 := idxOfS "type" fv3
    let cac := cac.set i3 (.str "test_type")
    .ok (dset d "cirrus_attributes_col" (.list cac))
  | _ => .error d

/-- The body of the try block of get_test_case_data (lines 220-305).  An
error is the caught-exception outcome and carries the final_dict state at
the moment of the raise; success carries the fully assembled dict. -/
def tryBody (env : Env) (data d : Dict) : Except Dict Dict :=
  match _get_date_filters env.clock data d with
  | .error _ => .error d
  | .ok (d1, fromD, toD) =>
    match env.getMapping with
    | .error _ => .error d1
    | .ok mapResp =>
      match catalogPhase mapResp d1 with
      | .error d2 => .error d2
      | .ok (d2, fieldsVisible) =>
        let defaultRow := mkDefaultRow fieldsVisible
        let query := PyVal.dict (_form_query_dict fromD toD fieldsVisible)
        match env.searchIndex query with
        | .error _ => .error d2
        | .ok pages =>
          match _get_aggregated_data env fromD toD (dlookup data "type") with
          | .error _ => .error d2
          | .ok ring0 =>
            match renameStatusFacet ring0 with
            | .error _ => .error d2
            | .ok ring =>
              match columnRenames d2 fieldsVisible with
              | .error d3 => .error d3
              | .ok d3 =>
                match rowLoopPages defaultRow pages d3 0 with
                | .error d4 => .error d4
                | .ok (d4, cnt) =>
                  .ok (dset (dset d4 "count" (.int cnt)) "ring_data" (.dict ring))

/-- Whichever dict a try outcome carries. -/
def errOr (r : Except Dict Dict) : Dict :=
  match r with
  | .ok d => d
  | .error d => d

/-- Whichever dict a phase outcome carries (phases return a dict and an
extra value on success, and the partial dict on error). -/
def errOrFst {α : Type} (r : Except Dict (Dict × α)) : Dict :=
  match r with
  | .ok p => p.1
  | .error d => d

/-- Did the try body run to completion. -/
def tryOk (r : Except Dict Dict) : Bool :=
  match r with
  | .ok _ => true
  | .error _ => false

/-- Lines 196-208: the initial final_dict, then merged with the request
payload itself (final_dict.update(dict(data))). -/
def initFinalDict (data : Dict) : Dict :=
  let d : Dict :=
    [("count", .int 0), ("testinfo", .list []), ("job_attributes", .list []),
     ("testattr", .list []), ("job_attributes_col", .list []),
     ("cirrus_attributes_col", .list []), ("xyz", .list []),
     ("testcase_attributes_col", .list []),
     ("reporttype", (dlookup data "reporttype").getD (.str "Testcase results")),
     ("retain", .dict data), ("view_data", .dict [])]
  dupdate d data

/-- Lines 210-217, before the try block: bind view_name when present (a
folders key without view_name leaves view_name unbound, a NameError), join
the folders path onto it, and under create_mode run the duplicate check on
data["folders"], raising the naming-conflict Exception on a duplicate.
Errors here propagate to the caller. -/
def preamble (env : Env) (data : Dict) : Except PyErr Unit :=
  let vn0 : Option PyVal := dlookup data "view_name"
  let vn1 : Except PyErr (Option PyVal) :=
    match dlookup data "folders" with
    | Option.none => .ok vn0
    | some fv =>
      match vn0 with
      | Option.none => .error .nameError
      | some vnv =>
        match pyPathJoin fv vnv with
        | .error e => .error e
        | .ok s => .ok (some (.str s))
  match vn1 with
  | .error e => .error e
  | .ok vn =>
    if (dlookup data "create_mode").isSome then
      match dlookup data "folders" with
      | Option.none => .error (.keyError "folders")
      | some fv =>
        match vn with
        | Option.none => .error .nameError
        | some vnv =>
          match fv, vnv with
          | .str fstr, .str vns =>
            match is_a_duplicate_view_available env.root env.fs fstr vns with
            | .error e => .error e
            | .ok true => .error (.userError ("View name provided is duplicate for " ++ vns))
            | .ok false => .ok ()
          | _, _ => .error .typeError
    else .ok ()

/-- get_test_case_data: swap in request.json when the payload is falsy,
build and merge the initial final_dict, run the pre-try view/create-mode
checks (whose errors propagate), then run the try body, catching any error
and returning whatever final_dict holds at that point. -/
def get_test_case_data (env : Env) (data : Dict) : Except PyErr Dict :=
  let data := if data.isEmpty then env.requestJson else data
  let d0 := initFinalDict data
  match preamble env data with
  | .error e => .error e
  | .ok _ => .ok (errOr (tryBody env data d0))

/-! ## Concrete environments used by witnesses and counterexamples -/

/-- An empty filesystem. -/
def fsEmpty : FS :=
  { isFile := fun _ => false, pathExists := fun _ => false, walk := fun _ => Option.none }

/-- A filesystem on which every directory listing succeeds and shows one
saved view file. -/
def fsWithView : FS :=
  { isFile := fun _ => false, pathExists := fun _ => true,
    walk := fun _ => some ([], ["v.json"]) }

/-- A filesystem holding exactly the saved view root/f/v.json. -/
def fsDup : FS :=
  { isFile := fun p => p == "root/f/v.json",
    pathExists := fun p => p == "root/f" || p == "root/f/v.json" || p == "root",
    walk := fun _ => Option.none }

/-- One raw indexed document: a record of type L2ADD with status passed on
2021-01-01. -/
def docL2 : PyVal :=
  .dict [("_source", .dict [("type", .str "L2ADD"), ("status", .str "passed"),
                            ("jobdate", .str "2021-01-01")])]

/-- The healthy environment: no dynamic attribute mapping, one page with
the single L2ADD/passed record, and a status facet with one passed bucket. -/
def envOk : Env :=
  { clock := { now := 0, strftime := fun i => toString i },
    requestJson := [],
    fs := fsEmpty,
    root := "root",
    getMapping := .ok (.dict []),
    searchIndex := fun _ => .ok [[docL2]],
    search := fun _ => .ok (.dict [("aggregations", .dict
      [("jobstatus", .dict [("buckets", .list
        [.dict [("key", .str "passed"), ("doc_count", .int 1)]])])])]) }

/-- Like envOk but the second raw document is malformed, so the row loop
fails after folding the first row. -/
def envBad : Env :=
  { envOk with searchIndex := fun _ => .ok [[docL2, .str "bad"]] }

/-- Like envOk but with the filesystem that lists a saved view everywhere
(used to drive the create-mode duplicate check). -/
def envDup : Env :=
  { envOk with fs := fsWithView }

/-- The report request with an unbounded date range. -/
def dataAll : Dict := [("filter", .str "all")]

/-- The payload of the whole-pipeline evaluation: its assembled output. -/
def okDict : Dict := (get_test_case_data envOk dataAll).toOption.getD []

/-- The single report row of okDict. -/
def okRow : Dict :=
  match dlookup okDict "testinfo" with
  | some (.list [PyVal.dict r]) => r
  | _ => []

/-- The aggregation map attached to okDict. -/
def okRing : Dict :=
  match dlookup okDict "ring_data" with
  | some (.dict r) => r
  | _ => []

/-- The canonical save-view payload for folder f, view v. -/
def payload0 : Dict := [("folder", .str "f"), ("view", .str "v"), ("filters", .dict [])]

/-- Is a result a success. -/
def exOk {ε α : Type} : Except ε α → Bool
  | .ok _ => true
  | .error _ => false

/-- len of a Python list value. -/
def pyLen : PyVal → Option Nat
  | .list l => some l.length
  | _ => Option.none

/-- A concrete clock: day 100, dates rendered as day numbers. -/
def clock0 : Clock := { now := 100, strftime := fun i => toString i }

/-- A relative 7-day report request. -/
def dataDays : Dict := [("filter", .str "days"), ("days", .int 7)]

/-- A filesystem where root/b exists and the saved view root/a.json exists. -/
def fs9 : FS :=
  { isFile := fun p => p == "root/a.json",
    pathExists := fun p => p == "root/b",
    walk := fun _ => Option.none }

/-! ## Dictionary lemmas -/

theorem dlookup_dset (d : Dict) (k : String) (v : PyVal) (k2 : String) :
    dlookup (dset d k v) k2 = if k = k2 then some v else dlookup d k2 := by
  induction d with
  | nil =>
    by_cases h : k = k2 <;> simp [dset, dlookup, h]
  | cons e t ih =>
    obtain ⟨k1, v1⟩ := e
    by_cases h1 : k1 = k
    · subst h1
      by_cases h2 : k1 = k2
      · subst h2
        simp [dset, dlookup]
      · simp [dset, dlookup, h2]
    · by_cases h3 : k1 = k2
      · subst h3
        have h2 : ¬ k = k1 := fun h => h1 h.symm
        simp [dset, dlookup, h1, h2, dlookup]
      · simp [dset, dlookup, h1, h3, ih]

theorem dlookup_dremove (d : Dict) (k k2 : String) :
    dlookup (dremove d k) k2 = if k = k2 then Option.none else dlookup d k2 := by
  induction d with
  | nil => by_cases h : k = k2 <;> simp [dremove, dlookup, h]
  | cons e t ih =>
    obtain ⟨k1, v1⟩ := e
    by_cases h1 : k1 = k
    · subst h1
      by_cases h2 : k1 = k2
      · subst h2
        simpa [dremove, dlookup] using ih
      · simpa [dremove, dlookup, h2] using ih
    · by_cases h3 : k1 = k2
      · subst h3
        have h2 : ¬ k = k1 := fun h => h1 h.symm
        simp [dremove, dlookup, h1, h2]
      · simp [dremove, dlookup, h1, h3, ih]

theorem dlookup_dupdate_none (d u : Dict) (k : String)
    (h : dlookup u k = Option.none) :
    dlookup (dupdate d u) k = dlookup d k := by
  induction u generalizing d with
  | nil => simp [dupdate]
  | cons e t ih =>
    obtain ⟨k1, v1⟩ := e
    simp only [dlookup] at h
    by_cases h1 : k1 = k
    · simp [h1] at h
    · simp only [h1, if_false] at h
      have := ih (dset d k1 v1) h
      simp only [dupdate, List.foldl] at this ⊢
      rw [this, dlookup_dset, if_neg h1]

theorem dlookup_dupdate_isSome (d u : Dict) (k : String)
    (h : (dlookup d k).isSome = true) :
    (dlookup (dupdate d u) k).isSome = true := by
  induction u generalizing d with
  | nil => simpa [dupdate] using h
  | cons e t ih =>
    obtain ⟨k1, v1⟩ := e
    have h2 : (dlookup (dset d k1 v1) k).isSome = true := by
      rw [dlookup_dset]
      by_cases h3 : k1 = k <;> simp [h3, h]
    have := ih (dset d k1 v1) h2
    simpa [dupdate, List.foldl] using this

theorem dAppend_ok (d : Dict) (k : String) (v : PyVal) (d2 : Dict)
    (h : dAppend d k v = .ok d2) :
    ∃ l, d2 = dset d k (.list l) := by
  unfold dAppend at h
  cases hl : dlookup d k with
  | none => rw [hl] at h; exact absurd h (by simp)
  | some x =>
    rw [hl] at h
    cases x with
    | list l =>
      refine ⟨l ++ [v], ?_⟩
      simp only [Except.ok.injEq] at h
      exact h.symm
    | none => exact absurd h (by simp)
    | bool b => exact absurd h (by simp)
    | int n => exact absurd h (by simp)
    | str s => exact absurd h (by simp)
    | dict dd => exact absurd h (by simp)

theorem dlookup_foldl_na (cat : List String) (acc : Dict) (k : String) :
    dlookup (cat.foldl (fun d f => dset d f (.str "NA")) acc) k =
      if k ∈ cat then some (.str "NA") else dlookup acc k := by
  induction cat generalizing acc with
  | nil => simp
  | cons c t ih =>
    simp only [List.foldl]
    rw [ih (dset acc c (.str "NA"))]
    by_cases h1 : k ∈ t
    · simp [h1, List.mem_cons]
    · by_cases h2 : c = k
      · subst h2
        simp [h1, dlookup_dset]
      · have h4 : ¬ k = c := fun h => h2 h.symm
        simp [h1, h2, h4, dlookup_dset, List.mem_cons]

theorem dlookup_mkDefaultRow (cat : List String) (k : String) :
    dlookup (mkDefaultRow cat) k =
      if k ∈ cat then some (.str "NA") else Option.none := by
  unfold mkDefaultRow
  rw [dlookup_foldl_na]
  rfl

theorem dlookup_dset_ne (d : Dict) (kk k : String) (v : PyVal) (h : kk ≠ k) :
    dlookup (dset d kk v) k = dlookup d k := by
  rw [dlookup_dset, if_neg h]

theorem isSome_dset (d : Dict) (kk k : String) (v : PyVal)
    (hs : (dlookup d k).isSome = true) :
    (dlookup (dset d kk v) k).isSome = true := by
  rw [dlookup_dset]
  by_cases h : kk = k <;> simp [h, hs]

/-! ## Phase lemmas -/

theorem gdf_ok_lookup (c : Clock) (data d d2 : Dict) (f t : Option String)
    (k : String) (h : _get_date_filters c data d = .ok (d2, f, t))
    (h1 : k ≠ "filter") (h2 : k ≠ "from_date") (h3 : k ≠ "to_date") :
    dlookup d2 k = dlookup d k := by
  have e3 : ∀ (x : Dict) (v1 v2 : PyVal),
      dlookup (dset (dset x "from_date" v1) "to_date" v2) k = dlookup x k := by
    intro x v1 v2
    rw [dlookup_dset_ne _ _ _ _ (Ne.symm h3), dlookup_dset_ne _ _ _ _ (Ne.symm h2)]
  have e1 : ∀ (x : Dict) (v : PyVal), dlookup (dset x "filter" v) k = dlookup x k :=
    fun x v => dlookup_dset_ne _ _ _ _ (Ne.symm h1)
  unfold _get_date_filters at h
  by_cases hd1 : filterMode data = some "date"
  · rw [if_pos hd1] at h
    cases hto : dlookup data "to_date" with
    | none => rw [hto] at h; simp at h
    | some tv =>
      rw [hto] at h
      cases tv with
      | str ts =>
        cases hfr : dlookup data "from_date" with
        | none => rw [hfr] at h; simp at h
        | some fv =>
          rw [hfr] at h
          cases fv with
          | str fs2 =>
            simp only [Except.ok.injEq, Prod.mk.injEq] at h
            rw [← h.1, e3, e1]
          | none => simp at h
          | bool b => simp at h
          | int n => simp at h
          | list l => simp at h
          | dict dd => simp at h
      | none => simp at h
      | bool b => simp at h
      | int n => simp at h
      | list l => simp at h
      | dict dd => simp at h
  · rw [if_neg hd1] at h
    by_cases hd2 : filterMode data = some "days"
    · rw [if_pos hd2] at h
      cases hdy : pyToInt (dlookup data "days") with
      | error e => rw [hdy] at h; simp at h
      | ok n =>
        rw [hdy] at h
        simp only [Except.ok.injEq, Prod.mk.injEq] at h
        rw [← h.1, e3, e1]
    · rw [if_neg hd2] at h
      by_cases hd3 : filterMode data = some "all"
      · rw [if_pos hd3] at h
        simp only [Except.ok.injEq, Prod.mk.injEq] at h
        rw [← h.1, e3, e1]
      · rw [if_neg hd3] at h
        simp only [Except.ok.injEq, Prod.mk.injEq] at h
        rw [← h.1, e3]

theorem gdf_ok_isSome (c : Clock) (data d d2 : Dict) (f t : Option String)
    (k : String) (h : _get_date_filters c data d = .ok (d2, f, t))
    (hs : (dlookup d k).isSome = true) :
    (dlookup d2 k).isSome = true := by
  unfold _get_date_filters at h
  by_cases hd1 : filterMode data = some "date"
  · rw [if_pos hd1] at h
    cases hto : dlookup data "to_date" with
    | none => rw [hto] at h; simp at h
    | some tv =>
      rw [hto] at h
      cases tv with
      | str ts =>
        cases hfr : dlookup data "from_date" with
        | none => rw [hfr] at h; simp at h
        | some fv =>
          rw [hfr] at h
          cases fv with
          | str fs2 =>
            simp only [Except.ok.injEq, Prod.mk.injEq] at h
            rw [← h.1]
            exact isSome_dset _ _ _ _ (isSome_dset _ _ _ _ (isSome_dset _ _ _ _ hs))
          | none => simp at h
          | bool b => simp at h
          | int n => simp at h
          | list l => simp at h
          | dict dd => simp at h
      | none => simp at h
      | bool b => simp at h
      | int n => simp at h
      | list l => simp at h
      | dict dd => simp at h
  · rw [if_neg hd1] at h
    by_cases hd2 : filterMode data = some "days"
    · rw [if_pos hd2] at h
      cases hdy : pyToInt (dlookup data "days") with
      | error e => rw [hdy] at h; simp at h
      | ok n =>
        rw [hdy] at h
        simp only [Except.ok.injEq, Prod.mk.injEq] at h
        rw [← h.1]
        exact isSome_dset _ _ _ _ (isSome_dset _ _ _ _ (isSome_dset _ _ _ _ hs))
    · rw [if_neg hd2] at h
      by_cases hd3 : filterMode data = some "all"
      · rw [if_pos hd3] at h
        simp only [Except.ok.injEq, Prod.mk.injEq] at h
        rw [← h.1]
        exact isSome_dset _ _ _ _ (isSome_dset _ _ _ _ (isSome_dset _ _ _ _ hs))
      · rw [if_neg hd3] at h
        simp only [Except.ok.injEq, Prod.mk.injEq] at h
        rw [← h.1]
        exact isSome_dset _ _ _ _ (isSome_dset _ _ _ _ hs)

theorem renameStatusFacet_ok (ring ring2 : Dict)
    (h : renameStatusFacet ring = .ok ring2) :
    ∃ v, dlookup ring "jobstatus" = some v ∧
      ring2 = dset (dremove ring "jobstatus") "stage_status" v := by
  unfold renameStatusFacet at h
  cases hl : dlookup ring "jobstatus" with
  | none => rw [hl] at h; exact absurd h (by simp)
  | some v =>
    rw [hl] at h
    simp only [Except.ok.injEq] at h
    exact ⟨v, rfl, h.symm⟩

theorem columnRenames_lookup (d : Dict) (fv : List String) (k : String)
    (h1 : k ≠ "cirrus_attributes_col") :
    dlookup (errOr (columnRenames d fv)) k = dlookup d k := by
  unfold columnRenames
  cases hl : dlookup d "cirrus_attributes_col" with
  | none => simp [errOr]
  | some x =>
    cases x with
    | list cac => simp only [errOr]; rw [dlookup_dset_ne _ _ _ _ (Ne.symm h1)]
    | none => simp [errOr]
    | bool b => simp [errOr]
    | int n => simp [errOr]
    | str s => simp [errOr]
    | dict dd => simp [errOr]

theorem columnRenames_isSome (d : Dict) (fv : List String) (k : String)
    (hs : (dlookup d k).isSome = true) :
    (dlookup (errOr (columnRenames d fv)) k).isSome = true := by
  unfold columnRenames
  cases hl : dlookup d "cirrus_attributes_col" with
  | none => simpa [errOr] using hs
  | some x =>
    cases x with
    | list cac => simp only [errOr]; exact isSome_dset _ _ _ _ hs
    | none => simpa [errOr] using hs
    | bool b => simpa [errOr] using hs
    | int n => simpa [errOr] using hs
    | str s => simpa [errOr] using hs
    | dict dd => simpa [errOr] using hs

theorem rowLoopDocs_cons (dr : Dict) (doc : PyVal) (rest : List PyVal)
    (d : Dict) (cnt : Nat) :
    rowLoopDocs dr (doc :: rest) d cnt =
      match shapeRow dr doc with
      | .error _ => .error d
      | .ok row =>
        match dAppend d "testinfo" (.dict row) with
        | .error _ => .error d
        | .ok d2 => rowLoopDocs dr rest d2 (cnt + 1) := rfl

theorem rowLoopDocs_lookup (dr : Dict) (docs : List PyVal) (d : Dict) (cnt : Nat)
    (k : String) (hk : k ≠ "testinfo") :
    dlookup (errOrFst (rowLoopDocs dr docs d cnt)) k = dlookup d k := by
  induction docs generalizing d cnt with
  | nil => simp [rowLoopDocs, errOrFst]
  | cons doc rest ih =>
    rw [rowLoopDocs_cons]
    cases hs : shapeRow dr doc with
    | error e => simp [hs, errOrFst]
    | ok row =>
      cases ha : dAppend d "testinfo" (.dict row) with
      | error e => simp [hs, ha, errOrFst]
      | ok d2 =>
        simp only [hs, ha]
        rw [ih d2 (cnt + 1)]
        obtain ⟨l, hl⟩ := dAppend_ok _ _ _ _ ha
        subst hl
        rw [dlookup_dset_ne _ _ _ _ (Ne.symm hk)]

theorem rowLoopDocs_isSome (dr : Dict) (docs : List PyVal) (d : Dict) (cnt : Nat)
    (k : String) (hs : (dlookup d k).isSome = true) :
    (dlookup (errOrFst (rowLoopDocs dr docs d cnt)) k).isSome = true := by
  induction docs generalizing d cnt with
  | nil => simpa [rowLoopDocs, errOrFst] using hs
  | cons doc rest ih =>
    rw [rowLoopDocs_cons]
    cases hsr : shapeRow dr doc with
    | error e => simpa [hsr, errOrFst] using hs
    | ok row =>
      cases ha : dAppend d "testinfo" (.dict row) with
      | error e => simpa [hsr, ha, errOrFst] using hs
      | ok d2 =>
        simp only [hsr, ha]
        apply ih
        obtain ⟨l, hl⟩ := dAppend_ok _ _ _ _ ha
        subst hl
        exact isSome_dset _ _ _ _ hs

theorem rowLoopPages_cons (dr : Dict) (pg : List PyVal) (rest : List (List PyVal))
    (d : Dict) (cnt : Nat) :
    rowLoopPages dr (pg :: rest) d cnt =
      match rowLoopDocs dr pg d cnt with
      | .error d2 => .error d2
      | .ok (d2, c2) => rowLoopPages dr rest d2 c2 := rfl

theorem rowLoopPages_lookup (dr : Dict) (pages : List (List PyVal)) (d : Dict)
    (cnt : Nat) (k : String) (hk : k ≠ "testinfo") :
    dlookup (errOrFst (rowLoopPages dr pages d cnt)) k = dlookup d k := by
  induction pages generalizing d cnt with
  | nil => simp [rowLoopPages, errOrFst]
  | cons pg rest ih =>
    rw [rowLoopPages_cons]
    cases hd : rowLoopDocs dr pg d cnt with
    | error d2 =>
      have := rowLoopDocs_lookup dr pg d cnt k hk
      rw [hd] at this
      simpa [hd, errOrFst] using this
    | ok p =>
      obtain ⟨d2, c2⟩ := p
      have hdl : dlookup d2 k = dlookup d k := by
        have := rowLoopDocs_lookup dr pg d cnt k hk
        rw [hd] at this
        simpa [errOrFst] using this
      simp only [hd]
      rw [ih d2 c2, hdl]

theorem rowLoopPages_isSome (dr : Dict) (pages : List (List PyVal)) (d : Dict)
    (cnt : Nat) (k : String) (hs : (dlookup d k).isSome = true) :
    (dlookup (errOrFst (rowLoopPages dr pages d cnt)) k).isSome = true := by
  induction pages generalizing d cnt with
  | nil => simpa [rowLoopPages, errOrFst] using hs
  | cons pg rest ih =>
    rw [rowLoopPages_cons]
    cases hd : rowLoopDocs dr pg d cnt with
    | error d2 =>
      have := rowLoopDocs_isSome dr pg d cnt k hs
      rw [hd] at this
      simpa [hd, errOrFst] using this
    | ok p =>
      obtain ⟨d2, c2⟩ := p
      simp only [hd]
      apply ih
      have := rowLoopDocs_isSome dr pg d cnt k hs
      rw [hd] at this
      simpa [errOrFst] using this

theorem catalogPhase_lookup (m : PyVal) (d : Dict) (k : String)
    (h4 : k ≠ "cirrus_attributes_col") (h5 : k ≠ "job_attributes_col")
    (h6 : k ≠ "testcase_attributes_col") (h7 : k ≠ "testattr") :
    dlookup (errOrFst (catalogPhase m d)) k = dlookup d k := by
  unfold catalogPhase
  cases extractAttrPair m with
  | error e => simp [errOrFst]
  | ok p =>
    obtain ⟨ja, ca⟩ := p
    simp only []
    cases attrProps ja "job_attrs_kv" with
    | error e =>
      simp only [errOrFst]
      exact dlookup_dset_ne _ _ _ _ (Ne.symm h4)
    | ok jks =>
      cases attrProps ca "cust_attrs_kv" with
      | error e =>
        cases jks with
        | none =>
          simp only [errOrFst]
          exact dlookup_dset_ne _ _ _ _ (Ne.symm h4)
        | some ks =>
          simp only [errOrFst]
          rw [dlookup_dset_ne _ _ _ _ (Ne.symm h5)]
          exact dlookup_dset_ne _ _ _ _ (Ne.symm h4)
      | ok cks =>
        cases jks with
        | none =>
          cases cks with
          | none =>
            simp only [errOrFst]
            rw [dlookup_dset_ne _ _ _ _ (Ne.symm h7)]
            exact dlookup_dset_ne _ _ _ _ (Ne.symm h4)
          | some ks2 =>
            simp only [errOrFst]
            rw [dlookup_dset_ne _ _ _ _ (Ne.symm h7),
                dlookup_dset_ne _ _ _ _ (Ne.symm h6)]
            exact dlookup_dset_ne _ _ _ _ (Ne.symm h4)
        | some ks =>
          cases cks with
          | none =>
            simp only [errOrFst]
            rw [dlookup_dset_ne _ _ _ _ (Ne.symm h7),
                dlookup_dset_ne _ _ _ _ (Ne.symm h5)]
            exact dlookup_dset_ne _ _ _ _ (Ne.symm h4)
          | some ks2 =>
            simp only [errOrFst]
            rw [dlookup_dset_ne _ _ _ _ (Ne.symm h7),
                dlookup_dset_ne _ _ _ _ (Ne.symm h6),
                dlookup_dset_ne _ _ _ _ (Ne.symm h5)]
            exact dlookup_dset_ne _ _ _ _ (Ne.symm h4)

theorem catalogPhase_isSome (m : PyVal) (d : Dict) (k : String)
    (hs : (dlookup d k).isSome = true) :
    (dlookup (errOrFst (catalogPhase m d)) k).isSome = true := by
  unfold catalogPhase
  cases extractAttrPair m with
  | error e => simpa [errOrFst] using hs
  | ok p =>
    obtain ⟨ja, ca⟩ := p
    simp only []
    cases attrProps ja "job_attrs_kv" with
    | error e =>
      simp only [errOrFst]
      exact isSome_dset _ _ _ _ hs
    | ok jks =>
      cases attrProps ca "cust_attrs_kv" with
      | error e =>
        cases jks with
        | none => simp only [errOrFst]; exact isSome_dset _ _ _ _ hs
        | some ks =>
          simp only [errOrFst]
          exact isSome_dset _ _ _ _ (isSome_dset _ _ _ _ hs)
      | ok cks =>
        cases jks with
        | none =>
          cases cks with
          | none =>
            simp only [errOrFst]
            exact isSome_dset _ _ _ _ (isSome_dset _ _ _ _ hs)
          | some ks2 =>
            simp only [errOrFst]
            exact isSome_dset _ _ _ _ (isSome_dset _ _ _ _ (isSome_dset _ _ _ _ hs))
        | some ks =>
          cases cks with
          | none =>
            simp only [errOrFst]
            exact isSome_dset _ _ _ _ (isSome_dset _ _ _ _ (isSome_dset _ _ _ _ hs))
          | some ks2 =>
            simp only [errOrFst]
            exact isSome_dset _ _ _ _
              (isSome_dset _ _ _ _ (isSome_dset _ _ _ _ (isSome_dset _ _ _ _ hs)))

/-! ## tryBody lemmas -/

theorem tryBody_error_lookup (env : Env) (data d dE : Dict) (k : String)
    (h : tryBody env data d = .error dE)
    (h1 : k ≠ "filter") (h2 : k ≠ "from_date") (h3 : k ≠ "to_date")
    (h4 : k ≠ "cirrus_attributes_col") (h5 : k ≠ "job_attributes_col")
    (h6 : k ≠ "testcase_attributes_col") (h7 : k ≠ "testattr")
    (h8 : k ≠ "testinfo") :
    dlookup dE k = dlookup d k := by
  unfold tryBody at h
  cases hg : _get_date_filters env.clock data d with
  | error e =>
    simp only [hg, Except.error.injEq] at h
    rw [← h]
  | ok p =>
    obtain ⟨d1, fromD, toD⟩ := p
    simp only [hg] at h
    have hd1 : dlookup d1 k = dlookup d k := gdf_ok_lookup _ _ _ _ _ _ _ hg h1 h2 h3
    cases hm : env.getMapping with
    | error e =>
      simp only [hm, Except.error.injEq] at h
      rw [← h]; exact hd1
    | ok mapResp =>
      simp only [hm] at h
      cases hc : catalogPhase mapResp d1 with
      | error d2 =>
        simp only [hc, Except.error.injEq] at h
        have hcl := catalogPhase_lookup mapResp d1 k h4 h5 h6 h7
        rw [hc] at hcl
        simp only [errOrFst] at hcl
        rw [← h]
        exact hcl.trans hd1
      | ok p2 =>
        obtain ⟨d2, fv⟩ := p2
        simp only [hc] at h
        have hcl : dlookup d2 k = dlookup d1 k := by
          have := catalogPhase_lookup mapResp d1 k h4 h5 h6 h7
          rw [hc] at this
          simpa [errOrFst] using this
        cases hsi : env.searchIndex (PyVal.dict (_form_query_dict fromD toD fv)) with
        | error e =>
          simp only [hsi, Except.error.injEq] at h
          rw [← h]; exact hcl.trans hd1
        | ok pages =>
          simp only [hsi] at h
          cases hag : _get_aggregated_data env fromD toD (dlookup data "type") with
          | error e =>
            simp only [hag, Except.error.injEq] at h
            rw [← h]; exact hcl.trans hd1
          | ok ring0 =>
            simp only [hag] at h
            cases hrn : renameStatusFacet ring0 with
            | error e =>
              simp only [hrn, Except.error.injEq] at h
              rw [← h]; exact hcl.trans hd1
            | ok ring =>
              simp only [hrn] at h
              cases hcr : columnRenames d2 fv with
              | error d3 =>
                simp only [hcr, Except.error.injEq] at h
                have hcrl := columnRenames_lookup d2 fv k h4
                rw [hcr] at hcrl
                simp only [errOr] at hcrl
                rw [← h]
                exact hcrl.trans (hcl.trans hd1)
              | ok d3 =>
                simp only [hcr] at h
                have hcrl : dlookup d3 k = dlookup d2 k := by
                  have := columnRenames_lookup d2 fv k h4
                  rw [hcr] at this
                  simpa [errOr] using this
                cases hrl : rowLoopPages (mkDefaultRow fv) pages d3 0 with
                | error d4 =>
                  simp only [hrl, Except.error.injEq] at h
                  have hrll := rowLoopPages_lookup (mkDefaultRow fv) pages d3 0 k h8
                  rw [hrl] at hrll
                  simp only [errOrFst] at hrll
                  rw [← h]
                  exact hrll.trans (hcrl.trans (hcl.trans hd1))
                | ok p4 =>
                  obtain ⟨d4, cnt⟩ := p4
                  simp only [hrl] at h
                  simp at h

theorem tryBody_error_isSome (env : Env) (data d dE : Dict) (k : String)
    (h : tryBody env data d = .error dE)
    (hs : (dlookup d k).isSome = true) :
    (dlookup dE k).isSome = true := by
  unfold tryBody at h
  cases hg : _get_date_filters env.clock data d with
  | error e =>
    simp only [hg, Except.error.injEq] at h
    rw [← h]; exact hs
  | ok p =>
    obtain ⟨d1, fromD, toD⟩ := p
    simp only [hg] at h
    have hs1 : (dlookup d1 k).isSome = true := gdf_ok_isSome _ _ _ _ _ _ _ hg hs
    cases hm : env.getMapping with
    | error e =>
      simp only [hm, Except.error.injEq] at h
      rw [← h]; exact hs1
    | ok mapResp =>
      simp only [hm] at h
      cases hc : catalogPhase mapResp d1 with
      | error d2 =>
        simp only [hc, Except.error.injEq] at h
        have hcs := catalogPhase_isSome mapResp d1 k hs1
        rw [hc] at hcs
        simp only [errOrFst] at hcs
        rw [← h]
        exact hcs
      | ok p2 =>
        obtain ⟨d2, fv⟩ := p2
        simp only [hc] at h
        have hs2 : (dlookup d2 k).isSome = true := by
          have := catalogPhase_isSome mapResp d1 k hs1
          rw [hc] at this
          simpa [errOrFst] using this
        cases hsi : env.searchIndex (PyVal.dict (_form_query_dict fromD toD fv)) with
        | error e =>
          simp only [hsi, Except.error.injEq] at h
          rw [← h]; exact hs2
        | ok pages =>
          simp only [hsi] at h
          cases hag : _get_aggregated_data env fromD toD (dlookup data "type") with
          | error e =>
            simp only [hag, Except.error.injEq] at h
            rw [← h]; exact hs2
          | ok ring0 =>
            simp only [hag] at h
            cases hrn : renameStatusFacet ring0 with
            | error e =>
              simp only [hrn, Except.error.injEq] at h
              rw [← h]; exact hs2
            | ok ring =>
              simp only [hrn] at h
              cases hcr : columnRenames d2 fv with
              | error d3 =>
                simp only [hcr, Except.error.injEq] at h
                have hcs := columnRenames_isSome d2 fv k hs2
                rw [hcr] at hcs
                simp only [errOr] at hcs
                rw [← h]
                exact hcs
              | ok d3 =>
                simp only [hcr] at h
                have hs3 : (dlookup d3 k).isSome = true := by
                  have := columnRenames_isSome d2 fv k hs2
                  rw [hcr] at this
                  simpa [errOr] using this
                cases hrl : rowLoopPages (mkDefaultRow fv) pages d3 0 with
                | error d4 =>
                  simp only [hrl, Except.error.injEq] at h
                  have hrs := rowLoopPages_isSome (mkDefaultRow fv) pages d3 0 k hs3
                  rw [hrl] at hrs
                  simp only [errOrFst] at hrs
                  rw [← h]
                  exact hrs
                | ok p4 =>
                  obtain ⟨d4, cnt⟩ := p4
                  simp only [hrl] at h
                  simp at h

theorem tryBody_ok_shape (env : Env) (data d dF : Dict)
    (h : tryBody env data d = .ok dF) :
    ∃ d4 cnt r0 v, dlookup r0 "jobstatus" = some v ∧
      dF = dset (dset d4 "count" (.int cnt)) "ring_data"
        (.dict (dset (dremove r0 "jobstatus") "stage_status" v)) ∧
      (∀ k2, (dlookup d k2).isSome = true → (dlookup d4 k2).isSome = true) := by
  unfold tryBody at h
  cases hg : _get_date_filters env.clock data d with
  | error e => simp only [hg] at h; simp at h
  | ok p =>
    obtain ⟨d1, fromD, toD⟩ := p
    simp only [hg] at h
    cases hm : env.getMapping with
    | error e => simp only [hm] at h; simp at h
    | ok mapResp =>
      simp only [hm] at h
      cases hc : catalogPhase mapResp d1 with
      | error d2 => simp only [hc] at h; simp at h
      | ok p2 =>
        obtain ⟨d2, fv⟩ := p2
        simp only [hc] at h
        cases hsi : env.searchIndex (PyVal.dict (_form_query_dict fromD toD fv)) with
        | error e => simp only [hsi] at h; simp at h
        | ok pages =>
          simp only [hsi] at h
          cases hag : _get_aggregated_data env fromD toD (dlookup data "type") with
          | error e => simp only [hag] at h; simp at h
          | ok ring0 =>
            simp only [hag] at h
            cases hrn : renameStatusFacet ring0 with
            | error e => simp only [hrn] at h; simp at h
            | ok ring =>
              simp only [hrn] at h
              cases hcr : columnRenames d2 fv with
              | error d3 => simp only [hcr] at h; simp at h
              | ok d3 =>
                simp only [hcr] at h
                cases hrl : rowLoopPages (mkDefaultRow fv) pages d3 0 with
                | error d4 => simp only [hrl] at h; simp at h
                | ok p4 =>
                  obtain ⟨d4, cnt⟩ := p4
                  simp only [hrl, Except.ok.injEq] at h
                  obtain ⟨v, hv, hring⟩ := renameStatusFacet_ok ring0 ring hrn
                  refine ⟨d4, cnt, ring0, v, hv, ?_, ?_⟩
                  · rw [← h, hring]
                  · intro k2 hk2
                    have hs1 : (dlookup d1 k2).isSome = true :=
                      gdf_ok_isSome _ _ _ _ _ _ _ hg hk2
                    have hs2 : (dlookup d2 k2).isSome = true := by
                      have := catalogPhase_isSome mapResp d1 k2 hs1
                      rw [hc] at this
                      simpa [errOrFst] using this
                    have hs3 : (dlookup d3 k2).isSome = true := by
                      have := columnRenames_isSome d2 fv k2 hs2
                      rw [hcr] at this
                      simpa [errOr] using this
                    have := rowLoopPages_isSome (mkDefaultRow fv) pages d3 0 k2 hs3
                    rw [hrl] at this
                    simpa [errOrFst] using this

/-! ## Preamble and initial-dict lemmas -/

theorem preamble_ok (env : Env) (data : Dict)
    (hf : dlookup data "folders" = Option.none)
    (hc : dlookup data "create_mode" = Option.none) :
    preamble env data = .ok () := by
  simp [preamble, hf, hc]

theorem initFinalDict_isSome (data : Dict) (k : String)
    (hk : k ∈ (["count", "testinfo", "job_attributes", "testattr",
      "job_attributes_col", "cirrus_attributes_col", "xyz",
      "testcase_attributes_col", "reporttype", "retain", "view_data"] : List String)) :
    (dlookup (initFinalDict data) k).isSome = true := by
  unfold initFinalDict
  apply dlookup_dupdate_isSome
  fin_cases hk <;> rfl

theorem initFinalDict_ring_data (data : Dict)
    (h : dlookup data "ring_data" = Option.none) :
    dlookup (initFinalDict data) "ring_data" = Option.none := by
  unfold initFinalDict
  rw [dlookup_dupdate_none _ _ _ h]
  rfl

theorem initFinalDict_count (data : Dict)
    (h : dlookup data "count" = Option.none) :
    dlookup (initFinalDict data) "count" = some (.int 0) := by
  unfold initFinalDict
  rw [dlookup_dupdate_none _ _ _ h]
  rfl

theorem get_test_case_data_eq (env : Env) (data : Dict) (hne : data ≠ [])
    (hp : preamble env data = .ok ()) :
    get_test_case_data env data = .ok (errOr (tryBody env data (initFinalDict data))) := by
  unfold get_test_case_data
  have he : data.isEmpty = false := by
    cases data with
    | nil => exact absurd rfl hne
    | cons a t => rfl
  simp only [he, Bool.false_eq_true, if_false, hp]

theorem get_available_views_ok_noview (root : String) (fs : FS) (path : Option String)
    (dta : Dict) (h : get_available_views root fs path = .ok dta) :
    dlookup dta "view" = Option.none := by
  cases path with
  | none =>
    unfold get_available_views at h
    cases hw : fs.walk root with
    | none => simp only [hw] at h; simp at h
    | some pr =>
      obtain ⟨dirs, files⟩ := pr
      simp only [hw, Except.ok.injEq] at h
      rw [← h]
      rw [dlookup_dset_ne _ _ _ _ (by decide), dlookup_dset_ne _ _ _ _ (by decide)]
      rfl
  | some pp =>
    unfold get_available_views at h
    cases hw : fs.walk (if pp = "" then root else pjoin root pp) with
    | none => simp only [hw] at h; simp at h
    | some pr =>
      obtain ⟨dirs, files⟩ := pr
      simp only [hw, Except.ok.injEq] at h
      rw [← h]
      rw [dlookup_dset_ne _ _ _ _ (by decide), dlookup_dset_ne _ _ _ _ (by decide)]
      rfl

theorem contains_iff_memS (l : List String) (k : String) :
    l.contains k = true ↔ k ∈ l :=
  List.elem_iff

/-! ## Claim theorems -/

/-- C2: the intended behaviour is that a create-mode request with a view
identity runs a duplicate check before any query and raises an explicit
naming-conflict error when a duplicate exists.  The code instead reads key
"view" from a listing dict whose keys are "views" and "folders", so the
duplicate check never completes: it raises KeyError("view") whenever the
listing succeeds (and a walk error otherwise), and the naming-conflict
Exception at line 217 is unreachable.  The second conjunct evaluates the
check on a store that does hold a duplicate view, the third evaluates a
full create-mode report request there: both raise KeyError("view"). -/
theorem duplicate_view_check_is_broken :
    (∀ (root : String) (fs : FS) (folders viewName : String),
      exOk (is_a_duplicate_view_available root fs folders viewName) = false)
    ∧ is_a_duplicate_view_available "root" fsWithView "f" "f/v" = .error (.keyError "view")
    ∧ get_test_case_data envDup
        [("view_name", .str "v"), ("folders", .str "f"), ("create_mode", .bool true)] =
        .error (.keyError "view") := by
  refine ⟨?_, rfl, rfl⟩
  intro root fs folders viewName
  unfold is_a_duplicate_view_available
  cases hg : get_available_views root fs (some (pjoin folders viewName)) with
  | error e => simp [hg, exOk]
  | ok dta =>
    have hnv := get_available_views_ok_noview root fs _ dta hg
    simp [hg, hnv, exOk]

/-- C5: date-range resolution.  filter all yields (None, None); an omitted
or unrecognized filter yields the last-30-days default now - 30 .. now;
filter days with days resolving to the integer n yields now - n .. now;
filter date yields the pre-T portion of each supplied bound. -/
theorem date_filter_resolution :
    ∀ (c : Clock) (data d : Dict),
    (filterMode data = some "all" →
      ∃ d2, _get_date_filters c data d = .ok (d2, Option.none, Option.none))
    ∧ (filterMode data ≠ some "all" → filterMode data ≠ some "days" →
        filterMode data ≠ some "date" →
      ∃ d2, _get_date_filters c data d =
        .ok (d2, some (c.strftime (c.now - 30)), some (c.strftime c.now)))
    ∧ (∀ n : Int, filterMode data = some "days" →
        pyToInt (dlookup data "days") = .ok n →
      ∃ d2, _get_date_filters c data d =
        .ok (d2, some (c.strftime (c.now - n)), some (c.strftime c.now)))
    ∧ (∀ ts fs2 : String, filterMode data = some "date" →
        dlookup data "to_date" = some (.str ts) →
        dlookup data "from_date" = some (.str fs2) →
      ∃ d2, _get_date_filters c data d =
        .ok (d2, some ((pySplit fs2 "T").headD ""), some ((pySplit ts "T").headD ""))) := by
  intro c data d
  refine ⟨?_, ?_, ?_, ?_⟩
  · intro h
    refine ⟨dset (dset (dset d "filter" (.str "All")) "from_date" .none) "to_date" .none, ?_⟩
    simp [_get_date_filters, h]
  · intro ha hdy hdt
    refine ⟨dset (dset d "from_date" (.str (c.strftime (c.now - 30)))) "to_date"
      (.str (c.strftime c.now)), ?_⟩
    simp [_get_date_filters, ha, hdy, hdt]
  · intro n hd hn
    refine ⟨dset (dset (dset d "filter"
      (.str ("Last " ++ pyStrOf ((dlookup data "days").getD .none) ++ " days")))
      "from_date" (.str (c.strftime (c.now - n)))) "to_date" (.str (c.strftime c.now)), ?_⟩
    simp [_get_date_filters, hd, hn]
  · intro ts fs2 hd hto hfr
    refine ⟨dset (dset (dset d "filter"
      (.str ((pySplit fs2 "T").headD "" ++ " to " ++ (pySplit ts "T").headD "")))
      "from_date" (.str ((pySplit fs2 "T").headD ""))) "to_date"
      (.str ((pySplit ts "T").headD "")), ?_⟩
    simp [_get_date_filters, hd, hto, hfr]

/-- C5 witness: a 7-day relative request on day 100 yields 93 .. 100. -/
theorem date_filter_resolution_witness :
    ∃ d2, _get_date_filters clock0 dataDays [] = .ok (d2, some "93", some "100") :=
  (date_filter_resolution clock0 dataDays []).2.2.1 7 rfl rfl

/-- C6: the query built by _form_query_dict has no range clause when either
bound is absent (Python-falsy: None or the empty string), and exactly one
inclusive jobdate range clause, gte = from and lte = to, when both bounds
are present (truthy); its source projection unconditionally excludes the
two raw key-value sub-fields and includes exactly the visible fields plus
the job_attrs and cust_attrs namespaces. -/
theorem form_query_spec :
    ∀ (fromD toD : Option String) (fields : List String),
    ((fromD = Option.none ∨ toD = Option.none) →
      dlookup (_form_query_dict fromD toD fields) "query" = Option.none)
    ∧ (pyTruthyOptStr fromD = true → pyTruthyOptStr toD = true →
      dlookup (_form_query_dict fromD toD fields) "query" =
        some (.dict [("query", .dict [("bool", .dict [("filter", .dict [("range", .dict
          [("jobdate", .dict [("gte", pyOfOptStr fromD), ("lte", pyOfOptStr toD)])])])])])]))
    ∧ dlookup (_form_query_dict fromD toD fields) "_source" =
        some (.dict [("excludes",
            .list [.str "job_attrs.job_attrs_kv", .str "cust_attrs.cust_attrs_kv"]),
          ("includes", .list ((fields ++ ["job_attrs", "cust_attrs"]).map PyVal.str))]) := by
  intro fromD toD fields
  refine ⟨?_, ?_, ?_⟩
  · intro h
    rcases h with h | h <;> subst h <;>
      simp [_form_query_dict, pyTruthyOptStr, dlookup, dset]
  · intro hf ht
    simp [_form_query_dict, hf, ht, dlookup, dset]
  · unfold _form_query_dict
    split <;> simp [dlookup, dset]

/-- C6 witness: both bounds present. -/
theorem form_query_spec_witness :
    dlookup (_form_query_dict (some "2021-01-01") (some "2021-02-01") ["a"]) "query" =
      some (.dict [("query", .dict [("bool", .dict [("filter", .dict [("range", .dict
        [("jobdate", .dict [("gte", .str "2021-01-01"), ("lte", .str "2021-02-01")])])])])])])
    ∧ dlookup (_form_query_dict Option.none Option.none ["a"]) "query" = Option.none :=
  ⟨(form_query_spec (some "2021-01-01") (some "2021-02-01") ["a"]).2.1 rfl rfl,
   (form_query_spec Option.none Option.none ["a"]).1 (Or.inl rfl)⟩

/-- C7: the claim expects create to fail with a DuplicateView IOError when
a file already exists at the resolved path.  The duplicate branch instead
raises NameError: its IOError message interpolates os.path.join(folders,
view_name), and neither name is bound in create_test_results_view.  The
non-duplicate path writes root/f/v.json with the filters, and update with
the same identity validates and overwrites unconditionally, as claimed. -/
theorem create_duplicate_behaviour :
    create_test_results_view "root" fsDup payload0 (.str "create") = .error .nameError
    ∧ create_test_results_view "root" fsEmpty payload0 (.str "create") =
        .ok ("root/f/v.json", .dict [])
    ∧ update_test_results_view "root" payload0 = .ok ("root/f/v.json", .dict []) :=
  ⟨rfl, rfl, rfl⟩

/-- C9: move requires the destination to exist and fails with the
destination-missing IOError when it does not; a file named src + ".json"
makes this a file move with the extension appended, taking priority over a
same-named folder; otherwise the source must exist as is, else the
source-missing IOError is raised. -/
theorem move_view_spec :
    ∀ (root : String) (fs : FS) (src dest : String),
    (fs.pathExists (pjoin root dest) = false →
      move_test_results_view root fs src dest =
        .error (.ioError ("Destination path " ++ dest ++ " does not exist")))
    ∧ (fs.pathExists (pjoin root dest) = true →
        fs.isFile (pjoin root src ++ ".json") = true →
      move_test_results_view root fs src dest =
        .ok (pjoin root src ++ ".json", pjoin root dest))
    ∧ (fs.pathExists (pjoin root dest) = true →
        fs.isFile (pjoin root src ++ ".json") = false →
        fs.pathExists (pjoin root src) = true →
      move_test_results_view root fs src dest = .ok (pjoin root src, pjoin root dest))
    ∧ (fs.pathExists (pjoin root dest) = true →
        fs.isFile (pjoin root src ++ ".json") = false →
        fs.pathExists (pjoin root src) = false →
      move_test_results_view root fs src dest =
        .error (.ioError ("Source path " ++ src ++ " does not exist"))) := by
  intro root fs src dest
  refine ⟨?_, ?_, ?_, ?_⟩
  · intro h1
    simp [move_test_results_view, h1]
  · intro h1 h2
    simp [move_test_results_view, h1, h2]
  · intro h1 h2 h3
    simp [move_test_results_view, h1, h2, h3]
  · intro h1 h2 h3
    simp [move_test_results_view, h1, h2, h3]

/-- C9 witness: a file move with an existing destination, and a move to a
missing destination. -/
theorem move_view_spec_witness :
    move_test_results_view "root" fs9 "a" "b" = .ok ("root/a.json", "root/b")
    ∧ move_test_results_view "root" fs9 "a" "missing" =
        .error (.ioError ("Destination path " ++ "missing" ++ " does not exist")) :=
  ⟨(move_view_spec "root" fs9 "a" "b").2.1 rfl rfl,
   (move_view_spec "root" fs9 "a" "missing").1 rfl⟩

/-- C10: listing a path that is not an existing directory raises (next on
the empty os.walk generator raises StopIteration) instead of returning
empty folder and view lists.  The walk oracle returns Option.none exactly
for paths that are not existing directories. -/
theorem get_available_views_requires_dir :
    ∀ (root : String) (fs : FS) (p : String),
    p ≠ "" → fs.walk (pjoin root p) = Option.none →
    get_available_views root fs (some p) = .error .stopIteration := by
  intro root fs p hp hw
  simp [get_available_views, hp, hw]

/-- C10 witness: listing a missing directory on the empty filesystem. -/
theorem get_available_views_requires_dir_witness :
    get_available_views "root" fsEmpty (some "nope") = .error .stopIteration :=
  get_available_views_requires_dir "root" fsEmpty "nope" (by decide) rfl

/-- C8 counterexample: the claim says the failure message names the missing
keys and the extraneous keys.  For a payload with both a missing key set
and an extra key, validation raises only the missing-info error, carrying
view and filters, and the extraneous key extra is not named. -/
theorem validate_names_counterexample :
    _validate_save_view_data [("folder", .str "f"), ("extra", .int 1)] =
      .error (.missingInfo ["view", "filters"])
    ∧ ("extra" ∈ (["view", "filters"] : List String) → False) :=
  ⟨rfl, by decide⟩

/-- C8 amended: validation fails exactly when the payload key set is not
&#123;folder, view, filters&#125;; the failure names the missing keys when any are
missing, and only otherwise names the extraneous keys. -/
theorem validate_save_view_spec :
    ∀ (d : Dict),
    ((_validate_save_view_data d = .ok ()) ↔
      (∀ k, k ∈ dkeys d ↔ k ∈ saveViewStructure))
    ∧ (saveViewStructure.filter (fun k2 => !((dkeys d).contains k2)) ≠ [] →
      _validate_save_view_data d =
        .error (.missingInfo (saveViewStructure.filter (fun k2 => !((dkeys d).contains k2)))))
    ∧ (saveViewStructure.filter (fun k2 => !((dkeys d).contains k2)) = [] →
        (dkeys d).filter (fun k2 => !(saveViewStructure.contains k2)) ≠ [] →
      _validate_save_view_data d =
        .error (.unneededInfo ((dkeys d).filter (fun k2 => !(saveViewStructure.contains k2))))) := by
  intro d
  refine ⟨⟨?_, ?_⟩, ?_, ?_⟩
  · intro h k
    unfold _validate_save_view_data at h
    by_cases h1 : saveViewStructure.filter (fun k2 => !((dkeys d).contains k2)) = []
    · rw [if_neg (not_not_intro h1)] at h
      by_cases h2 : (dkeys d).filter (fun k2 => !(saveViewStructure.contains k2)) = []
      · constructor
        · intro hk
          by_contra hns
          have hmem : k ∈ (dkeys d).filter (fun k2 => !(saveViewStructure.contains k2)) := by
            rw [List.mem_filter]
            refine ⟨hk, ?_⟩
            cases hcv : saveViewStructure.contains k with
            | false => rfl
            | true => exact absurd ((contains_iff_memS _ _).mp hcv) hns
          rw [h2] at hmem
          simp at hmem
        · intro hk
          by_contra hnd
          have hmem : k ∈ saveViewStructure.filter (fun k2 => !((dkeys d).contains k2)) := by
            rw [List.mem_filter]
            refine ⟨hk, ?_⟩
            cases hcv : (dkeys d).contains k with
            | false => rfl
            | true => exact absurd ((contains_iff_memS _ _).mp hcv) hnd
          rw [h1] at hmem
          simp at hmem
      · rw [if_pos h2] at h
        simp at h
    · rw [if_pos h1] at h
      simp at h
  · intro hiff
    unfold _validate_save_view_data
    have h1 : saveViewStructure.filter (fun k2 => !((dkeys d).contains k2)) = [] := by
      rw [List.filter_eq_nil_iff]
      intro a ha
      have : a ∈ dkeys d := (hiff a).mpr ha
      simpa using this
    have h2 : (dkeys d).filter (fun k2 => !(saveViewStructure.contains k2)) = [] := by
      rw [List.filter_eq_nil_iff]
      intro a ha
      have : a ∈ saveViewStructure := (hiff a).mp ha
      simpa using this
    rw [if_neg (not_not_intro h1), if_neg (not_not_intro h2)]
  · intro hne
    unfold _validate_save_view_data
    rw [if_pos hne]
  · intro heq hne
    unfold _validate_save_view_data
    rw [if_neg (not_not_intro heq), if_pos hne]

/-- C8 witness: a payload missing filters fails naming filters; a payload
whose only deviation is the extra key fails naming extra. -/
theorem validate_save_view_spec_witness :
    _validate_save_view_data [("folder", .str "f"), ("view", .str "v")] =
      .error (.missingInfo ["filters"])
    ∧ _validate_save_view_data
        [("folder", .str "f"), ("view", .str "v"), ("filters", .dict []),
         ("extra", .int 1)] =
      .error (.unneededInfo ["extra"]) :=
  ⟨(validate_save_view_spec [("folder", .str "f"), ("view", .str "v")]).2.1 (by decide),
   (validate_save_view_spec [("folder", .str "f"), ("view", .str "v"),
      ("filters", .dict []), ("extra", .int 1)]).2.2 (by decide) (by decide)⟩

/-- C3: for every environment and request (nonempty, and not itself echoing
a ring_data key through the request merge), the aggregation map attached to
the report payload under ring_data never contains the raw facet key
jobstatus and always contains the renamed key stage_status: the rename
ring_data["stage_status"] = ring_data.pop("jobstatus") runs before the map
is attached, and when the status facet is absent from the search response
the pop raises, assembly degrades, and no map is attached at all. -/
theorem ring_data_rename_invariant :
    ∀ (env : Env) (data d ring : Dict),
    data ≠ [] →
    dlookup data "ring_data" = Option.none →
    get_test_case_data env data = .ok d →
    dlookup d "ring_data" = some (.dict ring) →
    dlookup ring "jobstatus" = Option.none ∧
      (dlookup ring "stage_status").isSome = true := by
  intro env data d ring hne hrd hok hring
  unfold get_test_case_data at hok
  have he : data.isEmpty = false := by
    cases data with
    | nil => exact absurd rfl hne
    | cons a t => rfl
  simp only [he, Bool.false_eq_true, if_false] at hok
  cases hp : preamble env data with
  | error e => simp only [hp] at hok; simp at hok
  | ok u =>
    simp only [hp, Except.ok.injEq] at hok
    subst hok
    cases htb : tryBody env data (initFinalDict data) with
    | error dE =>
      simp only [htb, errOr] at hring
      have h0 : dlookup (initFinalDict data) "ring_data" = Option.none :=
        initFinalDict_ring_data data hrd
      have hl := tryBody_error_lookup env data _ dE "ring_data" htb
        (by decide) (by decide) (by decide) (by decide) (by decide) (by decide)
        (by decide) (by decide)
      rw [hl, h0] at hring
      simp at hring
    | ok dF =>
      simp only [htb, errOr] at hring
      obtain ⟨d4, cnt, r0, v, hv, hdF, hpres⟩ := tryBody_ok_shape env data _ dF htb
      have hlook : dlookup dF "ring_data" =
          some (.dict (dset (dremove r0 "jobstatus") "stage_status" v)) := by
        rw [hdF, dlookup_dset]
        simp
      rw [hlook] at hring
      simp only [Option.some.injEq, PyVal.dict.injEq] at hring
      subst hring
      constructor
      · rw [dlookup_dset_ne _ _ _ _ (by decide), dlookup_dremove, if_pos rfl]
      · rw [dlookup_dset]
        simp

/-- C3 witness: the healthy environment attaches the renamed map. -/
theorem ring_data_rename_invariant_witness :
    dlookup okRing "jobstatus" = Option.none ∧
      (dlookup okRing "stage_status").isSome = true :=
  ring_data_rename_invariant envOk dataAll okDict okRing
    (List.cons_ne_nil _ _) rfl rfl rfl

/-- C4: row shaping.  Rows are seeded with NA for every catalog field; a
source field that is not a recognized row key is skipped; stage becomes
stage_stdout truncated at the first occurrence of the substring _ci with
the prefix kept; log_uri stays and additionally yields log_name, the
substring after the last slash; status yields both job and stage_status set
to the capitalized value; type is moved verbatim into test_type.  End to
end, the request with filter all against the index holding one record of
type L2ADD with status passed produces count 1 and one row with job Passed,
stage_status Passed and test_type L2ADD. -/
theorem report_row_shaping :
    (∀ (cat : List String) (f : String), f ∈ cat →
      dlookup (mkDefaultRow cat) f = some (.str "NA"))
    ∧ (∀ (row : Dict) (f : String) (v : PyVal), dlookup row f = Option.none →
      stepField row f v = .ok row)
    ∧ (∀ (row : Dict) (s : String), (dlookup row "stage").isSome = true →
      ∃ row2, stepField row "stage" (.str s) = .ok row2
        ∧ dlookup row2 "stage_stdout" = some (.str ((pySplit s "_ci").headD ""))
        ∧ dlookup row2 "stage" = Option.none)
    ∧ (∀ (row : Dict) (s : String), (dlookup row "log_uri").isSome = true →
      ∃ row2, stepField row "log_uri" (.str s) = .ok row2
        ∧ dlookup row2 "log_name" = some (.str ((pySplit s "/").getLastD ""))
        ∧ dlookup row2 "log_uri" = some (.str s))
    ∧ (∀ (row : Dict) (s : String), (dlookup row "status").isSome = true →
      ∃ row2, stepField row "status" (.str s) = .ok row2
        ∧ dlookup row2 "job" = some (.str (pyCapitalize s))
        ∧ dlookup row2 "stage_status" = some (.str (pyCapitalize s))
        ∧ dlookup row2 "status" = Option.none)
    ∧ (∀ (row : Dict) (v : PyVal), (dlookup row "type").isSome = true →
      ∃ row2, stepField row "type" v = .ok row2
        ∧ dlookup row2 "test_type" = some v
        ∧ dlookup row2 "type" = Option.none)
    ∧ (get_test_case_data envOk dataAll = .ok okDict
      ∧ dlookup okDict "count" = some (.int 1)
      ∧ dlookup okDict "testinfo" = some (.list [.dict okRow])
      ∧ dlookup okRow "job" = some (.str "Passed")
      ∧ dlookup okRow "stage_status" = some (.str "Passed")
      ∧ dlookup okRow "test_type" = some (.str "L2ADD")) := by
  refine ⟨?_, ?_, ?_, ?_, ?_, ?_, rfl, rfl, rfl, rfl, rfl, rfl⟩
  · intro cat f hf
    rw [dlookup_mkDefaultRow, if_pos hf]
  · intro row f v h
    simp [stepField, h]
  · intro row s hsome
    cases hl : dlookup row "stage" with
    | none => rw [hl] at hsome; simp at hsome
    | some w =>
      refine ⟨dset (dremove (dset row "stage" (.str s)) "stage") "stage_stdout"
        (.str ((pySplit s "_ci").headD "")), ?_, ?_, ?_⟩
      · simp [stepField, hl]
      · rw [dlookup_dset]
        simp
      · rw [dlookup_dset_ne _ _ _ _ (by decide), dlookup_dremove, if_pos rfl]
  · intro row s hsome
    cases hl : dlookup row "log_uri" with
    | none => rw [hl] at hsome; simp at hsome
    | some w =>
      refine ⟨dset (dset row "log_uri" (.str s)) "log_name"
        (.str ((pySplit s "/").getLastD "")), ?_, ?_, ?_⟩
      · simp [stepField, hl]
      · rw [dlookup_dset]
        simp
      · rw [dlookup_dset_ne _ _ _ _ (by decide), dlookup_dset, if_pos rfl]
  · intro row s hsome
    cases hl : dlookup row "status" with
    | none => rw [hl] at hsome; simp at hsome
    | some w =>
      refine ⟨dset (dremove (dset (dset row "status" (.str s)) "job"
        (.str (pyCapitalize s))) "status") "stage_status" (.str (pyCapitalize s)),
        ?_, ?_, ?_, ?_⟩
      · simp [stepField, hl]
      · rw [dlookup_dset_ne _ _ _ _ (by decide), dlookup_dremove, if_neg (by decide),
          dlookup_dset, if_pos rfl]
      · rw [dlookup_dset, if_pos rfl]
      · rw [dlookup_dset_ne _ _ _ _ (by decide), dlookup_dremove, if_pos rfl]
  · intro row v hsome
    cases hl : dlookup row "type" with
    | none => rw [hl] at hsome; simp at hsome
    | some w =>
      refine ⟨dset (dremove (dset row "type" v) "type") "test_type" v, ?_, ?_, ?_⟩
      · simp [stepField, hl]
      · rw [dlookup_dset, if_pos rfl]
      · rw [dlookup_dset_ne _ _ _ _ (by decide), dlookup_dremove, if_pos rfl]

/-- C4 witness: the stage derivation on a concrete row and value. -/
theorem report_row_shaping_witness :
    ∃ row2, stepField (mkDefaultRow baseFields) "stage" (.str "boot_ci_run") = .ok row2
      ∧ dlookup row2 "stage_stdout" = some (.str "boot")
      ∧ dlookup row2 "stage" = Option.none :=
  report_row_shaping.2.2.1 (mkDefaultRow baseFields) "boot_ci_run" rfl

/-- C1 counterexample: the claim says get_test_case_data never raises and
always returns the full payload with empty and zero defaults on failure.
(1) A payload with a folders key and no view_name raises NameError to the
caller (view_name is referenced before assignment at line 214).
(2) A payload with filter date and no to_date fails inside the try block:
the returned payload has no ring_data key at all, rather than an empty map.
(3) The merge of the request into final_dict lets a request-supplied count
key survive a failure, so count is 5, not 0.
(4) When the second raw document is malformed, one row is already folded
into testinfo before the failure, so the row list is not empty while count
stays 0. -/
theorem report_error_policy_counterexample :
    get_test_case_data envOk [("folders", .str "f")] = .error .nameError
    ∧ (get_test_case_data envOk [("filter", .str "date")]).toOption.map
        (fun d => (dlookup d "ring_data").isSome) = some false
    ∧ (get_test_case_data envOk [("filter", .str "date"), ("count", .int 5)]).toOption.map
        (fun d => dlookup d "count") = some (some (.int 5))
    ∧ (get_test_case_data envBad dataAll).toOption.map
        (fun d => (dlookup d "count", (dlookup d "testinfo").map pyLen)) =
        some (some (.int 0), some (some 1)) :=
  ⟨rfl, rfl, rfl, rfl⟩

/-- C1 amended: for every nonempty request payload carrying neither a
folders key nor a create_mode flag, get_test_case_data never raises to its
caller, and the returned payload always contains the echoed request under
retain, the resolved report type, the total count, the row list and the
three column-grouping lists; the aggregation map ring_data is present
whenever assembly succeeds and, unless echoed from the request itself, is
absent when assembly fails; on failure the count is the request-supplied
value, or zero when the request supplies none. -/
theorem report_error_policy :
    ∀ (env : Env) (data : Dict),
    data ≠ [] →
    dlookup data "folders" = Option.none →
    dlookup data "create_mode" = Option.none →
    ∃ d, get_test_case_data env data = .ok d
      ∧ (dlookup d "retain").isSome = true
      ∧ (dlookup d "reporttype").isSome = true
      ∧ (dlookup d "count").isSome = true
      ∧ (dlookup d "testinfo").isSome = true
      ∧ (dlookup d "job_attributes_col").isSome = true
      ∧ (dlookup d "cirrus_attributes_col").isSome = true
      ∧ (dlookup d "testcase_attributes_col").isSome = true
      ∧ (tryOk (tryBody env data (initFinalDict data)) = true →
          (dlookup d "ring_data").isSome = true)
      ∧ (tryOk (tryBody env data (initFinalDict data)) = false →
          dlookup data "ring_data" = Option.none →
          dlookup d "ring_data" = Option.none)
      ∧ (tryOk (tryBody env data (initFinalDict data)) = false →
          dlookup data "count" = Option.none →
          dlookup d "count" = some (.int 0)) := by
  intro env data hne hf hc
  have hge := get_test_case_data_eq env data hne (preamble_ok env data hf hc)
  have hkey : ∀ k, k ∈ (["count", "testinfo", "job_attributes", "testattr",
      "job_attributes_col", "cirrus_attributes_col", "xyz",
      "testcase_attributes_col", "reporttype", "retain", "view_data"] : List String) →
      (dlookup (errOr (tryBody env data (initFinalDict data))) k).isSome = true := by
    intro k hk
    have h0 := initFinalDict_isSome data k hk
    cases htb : tryBody env data (initFinalDict data) with
    | error dE =>
      simp only [errOr]
      exact tryBody_error_isSome env data _ dE k htb h0
    | ok dF =>
      simp only [errOr]
      obtain ⟨d4, cnt, r0, v, hv, hdF, hpres⟩ := tryBody_ok_shape env data _ dF htb
      rw [hdF]
      exact isSome_dset _ _ _ _ (isSome_dset _ _ _ _ (hpres k h0))
  refine ⟨errOr (tryBody env data (initFinalDict data)), hge,
    hkey "retain" (by decide), hkey "reporttype" (by decide),
    hkey "count" (by decide), hkey "testinfo" (by decide),
    hkey "job_attributes_col" (by decide), hkey "cirrus_attributes_col" (by decide),
    hkey "testcase_attributes_col" (by decide), ?_, ?_, ?_⟩
  · intro hok
    cases htb : tryBody env data (initFinalDict data) with
    | error dE => rw [htb] at hok; simp [tryOk] at hok
    | ok dF =>
      simp only [errOr]
      obtain ⟨d4, cnt, r0, v, hv, hdF, hpres⟩ := tryBody_ok_shape env data _ dF htb
      rw [hdF, dlookup_dset]
      simp
  · intro hfail hrd
    cases htb : tryBody env data (initFinalDict data) with
    | ok dF => rw [htb] at hfail; simp [tryOk] at hfail
    | error dE =>
      simp only [errOr]
      have h0 := initFinalDict_ring_data data hrd
      have hl := tryBody_error_lookup env data _ dE "ring_data" htb
        (by decide) (by decide) (by decide) (by decide) (by decide) (by decide)
        (by decide) (by decide)
      rw [hl, h0]
  · intro hfail hcnt
    cases htb : tryBody env data (initFinalDict data) with
    | ok dF => rw [htb] at hfail; simp [tryOk] at hfail
    | error dE =>
      simp only [errOr]
      have h0 := initFinalDict_count data hcnt
      have hl := tryBody_error_lookup env data _ dE "count" htb
        (by decide) (by decide) (by decide) (by decide) (by decide) (by decide)
        (by decide) (by decide)
      rw [hl, h0]

/-- C1 witness: the healthy environment and the filter-all request. -/
theorem report_error_policy_witness :
    ∃ d, get_test_case_data envOk dataAll = .ok d
      ∧ (dlookup d "retain").isSome = true
      ∧ (dlookup d "reporttype").isSome = true
      ∧ (dlookup d "count").isSome = true
      ∧ (dlookup d "testinfo").isSome = true
      ∧ (dlookup d "job_attributes_col").isSome = true
      ∧ (dlookup d "cirrus_attributes_col").isSome = true
      ∧ (dlookup d "testcase_attributes_col").isSome = true
      ∧ (tryOk (tryBody envOk dataAll (initFinalDict dataAll)) = true →
          (dlookup d "ring_data").isSome = true)
      ∧ (tryOk (tryBody envOk dataAll (initFinalDict dataAll)) = false →
          dlookup dataAll "ring_data" = Option.none →
          dlookup d "ring_data" = Option.none)
      ∧ (tryOk (tryBody envOk dataAll (initFinalDict dataAll)) = false →
          dlookup dataAll "count" = Option.none →
          dlookup d "count" = some (.int 0)) :=
  report_error_policy envOk dataAll (List.cons_ne_nil _ _) rfl rfl

end TestcaseReporting
